import Mathlib

/-!
Verification development for the lead-energy-api repository.

The repository has two Python source files:
  * `main.py`    — the Decision Engine: a FastAPI endpoint `gerar_proposta`
                   turning a customer profile into a commercial proposal;
  * `scraper.py` — the Extraction Pipeline: scrapes per-municipality
                   consumption statistics, normalizes them into a
                   per-district baseline, with fallback tables.

This file shallowly embeds both, faithful to the Python source:
  * Python floats are modelled as `ℚ` (the decimal literals of the source
    are exactly representable; no claim hinges on binary-float rounding);
  * Python `round` (banker's rounding, ties to even) is `pyRound`;
  * Python `int(...)` truncation toward zero is `pyInt`;
  * `str.lower()` is modelled ASCII-only (`pyLower`), `str.strip()` is
    `pyStrip`; the `in`-substring test is `strContains`;
  * dictionaries keyed by strings are association lists;
  * raised exceptions are `Except` errors.  FastAPI's `HTTPException`
    derives from `Exception`, so the blanket `except Exception` in
    `gerar_proposta` catches the 400-validation exceptions raised inside
    the `try` block and re-raises them as status-500 exceptions whose
    detail is `str(exc)`, which for a starlette `HTTPException` is
    `f"{status_code}: {detail}"`.  The wrapper `gerar_proposta` models
    exactly that;
  * network fetch / Excel download in `scraper.py` is abstracted as an
    `Option SourceTable` argument (`none` = no link found, download error
    or any exception before column detection).
-/

/-! ## Python string primitives -/

/-- Substring test on character lists: does `pat` occur inside `l`? -/
def strContainsAux (pat : List Char) : List Char → Bool
  | [] => pat.isEmpty
  | c :: t => (pat.isPrefixOf (c :: t)) || strContainsAux pat t

/-- Python's `pat in s` substring containment. -/
def strContains (s pat : String) : Bool := strContainsAux pat.data s.data

/-- Python's `str.lower()`, modelled on ASCII letters (the keyword sets and
    table headers used by the source are already lower-case outside ASCII). -/
def pyLower (s : String) : String := ⟨s.data.map Char.toLower⟩

/-- Python's `str.strip()`: drop whitespace at both ends. -/
def pyStrip (s : String) : String :=
  ⟨((s.data.dropWhile Char.isWhitespace).reverse.dropWhile Char.isWhitespace).reverse⟩

/-- Characters of `s` strictly before the first occurrence of `pat`
    (the whole of `s` when `pat` does not occur): Python's
    `s.split(pat)[0]` for a non-empty separator `pat`. -/
def splitHeadAux (pat : List Char) : List Char → List Char
  | [] => []
  | c :: t => if pat.isPrefixOf (c :: t) then [] else c :: splitHeadAux pat t

/-- Python's `s.split(pat)[0]`. -/
def splitHead (s pat : String) : String := ⟨splitHeadAux pat.data s.data⟩

/-! ## Python numeric primitives -/

/-- Python's `round` to an integer: nearest integer, ties to even. -/
def pyRoundInt (x : ℚ) : Int :=
  if x - ⌊x⌋ < 1/2 then ⌊x⌋
  else if 1/2 < x - ⌊x⌋ then ⌊x⌋ + 1
  else if ⌊x⌋ % 2 = 0 then ⌊x⌋ else ⌊x⌋ + 1

/-- Python's `round(x, n)` for `n` decimal digits. -/
def pyRound (x : ℚ) (n : ℕ) : ℚ := (pyRoundInt (x * 10 ^ n) : ℚ) / 10 ^ n

/-- Python's `int(x)`: truncation toward zero. -/
def pyInt (x : ℚ) : Int := if 0 ≤ x then ⌊x⌋ else ⌈x⌉

/-! ## Decision Engine (`main.py`) — data model -/

/-- Per-district consumption figures for the three customer types
    (`main.py` keeps them as a dict of Python ints). -/
structure ConsumoTipos where
  residencial : Int
  comercial_pequeno : Int
  industrial : Int
deriving Repr, DecidableEq

/-- Dict lookup `tipos[tipo_cliente]`.  In `gerar_proposta` this access is
    only reached after `tipo_cliente` was validated to be one of the three
    keys, so the default branch is unreachable there. -/
def ConsumoTipos.get (t : ConsumoTipos) (tipo : String) : Int :=
  if tipo = "residencial" then t.residencial
  else if tipo = "comercial_pequeno" then t.comercial_pequeno
  else if tipo = "industrial" then t.industrial
  else 0

/-- The request body (`class LeadInput(BaseModel)` in `main.py`). -/
structure LeadInput where
  distrito : String
  tipo_cliente : String
  consumo_anual_kwh : Option ℚ := none
  usa_gas : Bool := false
  consumo_gas_m3 : ℚ := 0
deriving Repr, DecidableEq

/-- The external predictor with its label encoders, per the interface
    `predict(features) -> score`; `predict` may fail (raise), carrying a
    message.  The feature-vector layout matches `main.py` line 108:
    `[distrito_cod, tipo_cod, consumo_kwh, usa_gas, consumo_gas, fatura]`
    (numpy renders the boolean as 1.0 / 0.0). -/
structure Predictor where
  distCode : String → ℚ
  tipoCode : String → ℚ
  predict : List ℚ → Except String ℚ

/-- The JSON object returned by the `/proposta` endpoint on success. -/
structure Proposta where
  lead_score : ℚ
  fatura_atual_eur : ℚ
  desconto_oferecido : Int
  economia_anual_eur : ℚ
  plano_recomendado : String
  mensagem_venda : String
  prioridade : String
deriving Repr, DecidableEq

/-- An exception raised inside the `try` block of `gerar_proposta`:
    either a `fastapi.HTTPException(status, detail)` or any other
    exception with its `str(...)` message. -/
inductive PyExc where
  | http (status : Nat) (detail : String)
  | exc (msg : String)
deriving Repr, DecidableEq

/-- What the endpoint ultimately surfaces to the HTTP layer on failure. -/
structure HTTPError where
  status : Nat
  detail : String
deriving Repr, DecidableEq

/-- Association-list lookup for the baseline dict
    `consumo_medio_eletricidade`. -/
def lookupBase (b : List (String × ConsumoTipos)) (k : String) : Option ConsumoTipos :=
  (b.find? (fun p => p.1 == k)).map (fun p => p.2)

/-- The valid customer types (`main.py` line 99). -/
def tiposValidos : List String := ["residencial", "comercial_pequeno", "industrial"]

/-- `main.py` line 102:
    `consumo_kwh = lead.consumo_anual_kwh or consumo_medio_eletricidade[...]`.
    Python `or` takes the right operand when the left is `None` **or** `0.0`
    (both are falsy). -/
def consumo_kwh_efetivo (l : LeadInput) (tipos : ConsumoTipos) : ℚ :=
  match l.consumo_anual_kwh with
  | some v => if v = 0 then (tipos.get l.tipo_cliente : ℚ) else v
  | none => (tipos.get l.tipo_cliente : ℚ)

/-- `main.py` line 103: `consumo_gas = lead.consumo_gas_m3 if lead.usa_gas else 0`. -/
def consumo_gas_efetivo (l : LeadInput) : ℚ :=
  if l.usa_gas then l.consumo_gas_m3 else 0

/-- `main.py` line 128: the sales-pitch f-string
    `f"Com o plano {plano}, você economiza €{round(economia_anual)} por ano!"`. -/
def mensagemVenda (plano : String) (econ : Int) : String :=
  s!"Com o plano {plano}, você economiza €{econ} por ano!"

/-- `main.py` lines 111–118: the discount of the tier table, evaluated
    top-down with strict `>` comparisons. -/
def descontoDe (propensao : ℚ) : Int :=
  if propensao > 70 then 22
  else if propensao > 50 then 18
  else if propensao > 30 then 15
  else 12

/-- `main.py` lines 111–118: the plan name of the tier table (same
    branches as `descontoDe`: the source assigns the pair at once). -/
def planoDe (propensao : ℚ) : String :=
  if propensao > 70 then "Verde Premium"
  else if propensao > 50 then "Flex"
  else if propensao > 30 then "Básico"
  else "Start"

/-- `main.py` line 129: the priority table. -/
def prioridadeDe (propensao : ℚ) : String :=
  if propensao > 60 then "ALTA"
  else if propensao > 30 then "MÉDIA"
  else "BAIXA"

/-- The body of the `try` block of `gerar_proposta` (`main.py` lines 97–130):
    validation, effective-consumption resolution, bill, predictor call,
    tier table, priority table, response record.  Raised exceptions are
    `.error` values. -/
def gerar_proposta_try (b : List (String × ConsumoTipos)) (pe pg : ℚ)
    (pr : Predictor) (lead : LeadInput) : Except PyExc Proposta :=
  match lookupBase b lead.distrito with
  | none => .error (.http 400 "Distrito inválido.")
  | some tipos =>
    if lead.tipo_cliente ∈ tiposValidos then
      let consumo_kwh := consumo_kwh_efetivo lead tipos
      let consumo_gas := consumo_gas_efetivo lead
      let fatura_atual := consumo_kwh * pe + consumo_gas * pg
      match pr.predict [pr.distCode lead.distrito, pr.tipoCode lead.tipo_cliente,
                        consumo_kwh, if lead.usa_gas then 1 else 0, consumo_gas,
                        fatura_atual] with
      | .error m => .error (.exc m)
      | .ok propensao =>
        let economia_anual := fatura_atual * ((descontoDe propensao : ℚ) / 100)
        .ok {
          lead_score := pyRound propensao 1
          fatura_atual_eur := pyRound fatura_atual 2
          desconto_oferecido := descontoDe propensao
          economia_anual_eur := pyRound economia_anual 2
          plano_recomendado := planoDe propensao
          mensagem_venda := mensagemVenda (planoDe propensao) (pyRoundInt economia_anual)
          prioridade := prioridadeDe propensao }
    else .error (.http 400 "Tipo inválido.")

/-- The whole endpoint (`main.py` lines 94–132): the `try` body wrapped by
    `except Exception as e: raise HTTPException(500, str(e))`.  Since
    `HTTPException` derives from `Exception`, the 400-validation exceptions
    are caught too and re-surface as status 500 with detail
    `f"{status_code}: {detail}"` (starlette's `HTTPException.__str__`). -/
def gerar_proposta (b : List (String × ConsumoTipos)) (pe pg : ℚ)
    (pr : Predictor) (lead : LeadInput) : Except HTTPError Proposta :=
  match gerar_proposta_try b pe pg pr lead with
  | .ok p => .ok p
  | .error (.http st d) => .error ⟨500, s!"{st}: {d}"⟩
  | .error (.exc m) => .error ⟨500, m⟩

/-- The built-in fallback baseline of `main.py` lines 25–31 (used when the
    scraper's JSON file is absent). -/
def consumo_medio_eletricidade_interno : List (String × ConsumoTipos) :=
  [("Lisboa", ⟨3850, 8470, 42350⟩),
   ("Porto", ⟨4250, 9350, 46750⟩),
   ("Faro", ⟨4900, 10780, 53900⟩),
   ("Coimbra", ⟨3950, 8690, 43450⟩),
   ("Braga", ⟨4550, 10010, 50050⟩)]

/-- A predictor returning the constant score `s` (both encoders zero: the
    claims under study only depend on the returned score). -/
def constPredictor (s : ℚ) : Predictor := ⟨fun _ => 0, fun _ => 0, fun _ => .ok s⟩

/-- A predictor that raises, message `m`. -/
def failPredictor (m : String) : Predictor := ⟨fun _ => 0, fun _ => 0, fun _ => .error m⟩

/-- Projection: the proposal of a successful run. -/
def propostaOf (r : Except HTTPError Proposta) : Option Proposta :=
  match r with
  | .ok p => some p
  | .error _ => none

/-- Projection: the HTTP status surfaced by a failed run. -/
def statusOf (r : Except HTTPError Proposta) : Option Nat :=
  match r with
  | .ok _ => none
  | .error e => some e.status

/-! ## Extraction Pipeline (`scraper.py`) -/

/-- One cell of the source spreadsheet as pandas exposes it: `txt` is the
    `astype(str)` rendering, `num` the numeric value (the source only reads
    the municipality and type columns as text and the consumption column as
    numbers). -/
structure Cell where
  txt : String
  num : ℚ
deriving Repr, DecidableEq

/-- The parsed worksheet: header row plus data rows
    (`pd.read_excel(..., sheet_name=1, header=1)`). -/
structure SourceTable where
  headers : List String
  rows : List (List Cell)
deriving Repr

/-- `scraper.py` line 60: `cols = [str(c).lower().strip() for c in df.columns]`. -/
def lowHeaders (t : SourceTable) : List String :=
  t.headers.map (fun h => pyStrip (pyLower h))

/-- `scraper.py` line 63: first column whose lowered header contains
    `munic` or `concelho`. -/
def findMunicipioCol (t : SourceTable) : Option Nat :=
  (lowHeaders t).findIdx? (fun c => strContains c "munic" || strContains c "concelho")

/-- `scraper.py` line 65: first column whose lowered header contains one of
    `tipo`, `setor`, `cliente`, `consumidor`. -/
def findTipoCol (t : SourceTable) : Option Nat :=
  (lowHeaders t).findIdx? (fun c =>
    strContains c "tipo" || strContains c "setor" ||
    strContains c "cliente" || strContains c "consumidor")

/-- `scraper.py` line 67: first column whose lowered header contains
    `consumo` together with a unit token `gwh`, `mwh` or `kwh`. -/
def findConsumoCol (t : SourceTable) : Option Nat :=
  (lowHeaders t).findIdx? (fun c =>
    strContains c "consumo" &&
    (strContains c "gwh" || strContains c "mwh" || strContains c "kwh"))

/-- `scraper.py` line 79: row filter
    `.str.contains('residencial|doméstico', case=False)`. -/
def isResidencialRow (s : String) : Bool :=
  strContains (pyLower s) "residencial" || strContains (pyLower s) "doméstico"

/-- `scraper.py` line 87: district name from the municipality cell —
    text before the first `" - "`, then before the first `"("`, stripped. -/
def extractDistrito (m : String) : String :=
  pyStrip (splitHead (splitHead m " - ") "(")

/-- Add `v` to the entry of key `k` of an association list (insert at the
    end when absent): the accumulator step of `groupby(...).sum()`. -/
def addTo (acc : List (String × ℚ)) (k : String) (v : ℚ) : List (String × ℚ) :=
  match acc with
  | [] => [(k, v)]
  | (k2, v2) :: t => if k2 == k then (k2, v2 + v) :: t else (k2, v2) :: addTo t k v

/-- `scraper.py` line 88: `df_res.groupby('Distrito')[consumo_col].sum()`. -/
def groupSum (l : List (String × ℚ)) : List (String × ℚ) :=
  l.foldl (fun acc p => addTo acc p.1 p.2) []

/-- `scraper.py` line 94: `round(val * 1_000_000 / 3_500_000, 0)` — the
    aggregated total is always multiplied by the GWh→kWh factor 1 000 000
    and divided by the national residential-consumer count 3 500 000. -/
def mediaKwh (val : ℚ) : ℚ := (pyRoundInt (val * 1000000 / 3500000) : ℚ)

/-- Failure of the normalization stage (`scraper.py` lines 69–74 and 80–84):
    which roles had no matching column, or no residential row survived the
    filter. -/
inductive NormFailure where
  | missingRoles (municipio tipo consumo : Bool)
  | emptyAfterFilter
deriving Repr, DecidableEq

/-- Cell access `row[i]` (rows of a parsed worksheet have every column). -/
def cellAt (row : List Cell) (i : Nat) : Cell := row.getD i ⟨"", 0⟩

/-- The normalization stage of `scrape_dgeg_electricidade`
    (`scraper.py` lines 59–94): column-role detection, residential filter,
    district extraction, per-district aggregation, unit conversion. -/
def normalizeTable (t : SourceTable) : Except NormFailure (List (String × ℚ)) :=
  match findMunicipioCol t, findTipoCol t, findConsumoCol t with
  | some mi, some ti, some ci =>
    let df_res := t.rows.filter (fun r => isResidencialRow (cellAt r ti).txt)
    if df_res.isEmpty then .error .emptyAfterFilter
    else
      let pairs := df_res.map (fun r => (extractDistrito (cellAt r mi).txt, (cellAt r ci).num))
      .ok ((groupSum pairs).map (fun p => (p.1, mediaKwh p.2)))
  | mc, tc, cc => .error (.missingRoles mc.isNone tc.isNone cc.isNone)

/-- `get_fallback_elec` (`scraper.py` lines 108–118): the fixed 2024
    fallback table of per-district residential kWh figures. -/
def get_fallback_elec : List (String × ℚ) :=
  [("Lisboa", 3850), ("Porto", 4250), ("Faro", 4900), ("Coimbra", 3950),
   ("Braga", 4550), ("Setúbal", 4100), ("Aveiro", 4300)]

/-- `scrape_dgeg_electricidade` (`scraper.py` lines 19–105) with the
    network / download stages abstracted into the `fetched` argument:
    `none` means no Excel link was found, the download failed, or an
    exception was raised — every such path returns the fallback table, as
    does a failed normalization. -/
def scrape_dgeg_electricidade (fetched : Option SourceTable) : List (String × ℚ) :=
  match fetched with
  | none => get_fallback_elec
  | some t =>
    match normalizeTable t with
    | .ok m => m
    | .error _ => get_fallback_elec

/-- Association-list lookup returning the value, for `elec_medias`. -/
def lookupQ (l : List (String × ℚ)) (k : String) : Option ℚ :=
  (l.find? (fun p => p.1 == k)).map (fun p => p.2)

/-- `scraper.py` line 125: the five fixed output districts. -/
def distritos_finais : List String := ["Lisboa", "Porto", "Faro", "Coimbra", "Braga"]

/-- One entry of the final baseline (`scraper.py` lines 127–131):
    `elec_medias.get(d, 4000)` with the 2.2× and 11× scalings, truncated
    by `int(...)`. -/
def buildEntry (medias : List (String × ℚ)) (d : String) : ConsumoTipos :=
  let v := (lookupQ medias d).getD 4000
  ⟨pyInt v, pyInt (v * 2.2), pyInt (v * 11)⟩

/-- `scraper.py` lines 126–132: the final baseline over the five fixed
    districts. -/
def buildBaseline (medias : List (String × ℚ)) : List (String × ConsumoTipos) :=
  distritos_finais.map (fun d => (d, buildEntry medias d))

/-- The JSON snapshot written by `main()` (`scraper.py` lines 134–139);
    the wall-clock `data_raspagem` timestamp is outside the model. -/
structure DadosSnapshot where
  consumo_medio_eletricidade : List (String × ConsumoTipos)
  preco_eletricidade : ℚ
  preco_gas : ℚ
  fonte : String
deriving Repr

/-- `main()` of `scraper.py` (lines 121–149): run the scrape (or its
    fallbacks), assemble the five-district baseline, and record the
    snapshot with prices and the provenance string — which the source
    hard-codes to `"DGEG (raspado) + Fallback 2024"` on every run. -/
def scraper_main (fetched : Option SourceTable) : DadosSnapshot :=
  let elec_medias := scrape_dgeg_electricidade fetched
  { consumo_medio_eletricidade := buildBaseline elec_medias
    preco_eletricidade := 24/100
    preco_gas := 10/100
    fonte := "DGEG (raspado) + Fallback 2024" }

/-! ## Spec-modelled unit-aware conversion (for the refinement claim C8) -/

/-- The metric energy units accepted by column detection. -/
inductive EnergyUnit where
  | gwh
  | mwh
  | kwh
deriving Repr, DecidableEq

/-- Modelled from the spec: the factor converting the detected unit to
    kilowatt-hours ("convert the aggregated total from its detected unit
    to kilowatt-hours"). -/
def toKwhFactor : EnergyUnit → ℚ
  | .gwh => 1000000
  | .mwh => 1000
  | .kwh => 1

/-- Modelled from the spec: unit-aware conversion of a per-region
    aggregated total — convert to kWh by the detected unit's factor, then
    divide by the national residential-consumer-count constant. -/
def convert_spec (u : EnergyUnit) (total : ℚ) : ℚ :=
  (pyRoundInt (total * toKwhFactor u / 3500000) : ℚ)

/-- The unit token the consumption-column detector matched in a lowered
    header, checked in the source's order `gwh`, `mwh`, `kwh`
    (`scraper.py` line 67). -/
def detectedUnit (c : String) : Option EnergyUnit :=
  if strContains c "gwh" then some .gwh
  else if strContains c "mwh" then some .mwh
  else if strContains c "kwh" then some .kwh
  else none

/-- The detected unit of a table's consumption column. -/
def tableDetectedUnit (t : SourceTable) : Option EnergyUnit :=
  (findConsumoCol t).bind (fun i => detectedUnit ((lowHeaders t).getD i ""))

/-! ## Concrete fixtures -/

/-- Lisboa residential lead with no supplied consumption and no gas. -/
def leadLisboa : LeadInput := { distrito := "Lisboa", tipo_cliente := "residencial" }

/-- A lead naming a region absent from every baseline. -/
def leadAtlantis : LeadInput := { distrito := "Atlantis", tipo_cliente := "residencial" }

/-- Lisboa residential lead that supplies the known consumption `0`. -/
def leadConsumoZero : LeadInput :=
  { distrito := "Lisboa", tipo_cliente := "residencial", consumo_anual_kwh := some 0 }

/-- Lisboa residential lead that supplies the known consumption `5000`. -/
def leadConsumo5000 : LeadInput :=
  { distrito := "Lisboa", tipo_cliente := "residencial", consumo_anual_kwh := some 5000 }

/-- The Lisboa row of the built-in baseline of `main.py`. -/
def tiposLisboa : ConsumoTipos := ⟨3850, 8470, 42350⟩

/-! ## Shared evaluation lemmas for the Decision Engine -/

/-- A validated run with a constant-score predictor evaluates to the full
    response record of `main.py` lines 122–130. -/
theorem gerar_proposta_ok (b : List (String × ConsumoTipos)) (pe pg s : ℚ)
    (l : LeadInput) (t : ConsumoTipos)
    (hd : lookupBase b l.distrito = some t) (ht : l.tipo_cliente ∈ tiposValidos) :
    gerar_proposta b pe pg (constPredictor s) l =
      .ok { lead_score := pyRound s 1
            fatura_atual_eur :=
              pyRound (consumo_kwh_efetivo l t * pe + consumo_gas_efetivo l * pg) 2
            desconto_oferecido := descontoDe s
            economia_anual_eur :=
              pyRound ((consumo_kwh_efetivo l t * pe + consumo_gas_efetivo l * pg) *
                ((descontoDe s : ℚ) / 100)) 2
            plano_recomendado := planoDe s
            mensagem_venda := mensagemVenda (planoDe s)
              (pyRoundInt ((consumo_kwh_efetivo l t * pe + consumo_gas_efetivo l * pg) *
                ((descontoDe s : ℚ) / 100)))
            prioridade := prioridadeDe s } := by
  unfold gerar_proposta gerar_proposta_try
  rw [hd]
  simp [ht, constPredictor]

/-- A validated run whose predictor raises surfaces status 500 with the
    raw exception message (the generic `except` handler of `main.py`). -/
theorem gerar_proposta_predfail (b : List (String × ConsumoTipos)) (pe pg : ℚ)
    (m : String) (l : LeadInput) (t : ConsumoTipos)
    (hd : lookupBase b l.distrito = some t) (ht : l.tipo_cliente ∈ tiposValidos) :
    gerar_proposta b pe pg (failPredictor m) l = .error ⟨500, m⟩ := by
  unfold gerar_proposta gerar_proposta_try
  rw [hd]
  simp [ht, failPredictor]

/-- An unknown district is rejected before any computation, but the
    blanket handler re-raises the 400 as a 500 whose detail is the
    `str(...)` of the original exception. -/
theorem gerar_proposta_distrito_inv (b : List (String × ConsumoTipos)) (pe pg : ℚ)
    (pr : Predictor) (l : LeadInput) (hd : lookupBase b l.distrito = none) :
    gerar_proposta b pe pg pr l = .error ⟨500, "400: Distrito inválido."⟩ := by
  unfold gerar_proposta gerar_proposta_try
  rw [hd]
  rfl

/-- An unknown customer type is rejected the same way. -/
theorem gerar_proposta_tipo_inv (b : List (String × ConsumoTipos)) (pe pg : ℚ)
    (pr : Predictor) (l : LeadInput) (t : ConsumoTipos)
    (hd : lookupBase b l.distrito = some t) (ht : l.tipo_cliente ∉ tiposValidos) :
    gerar_proposta b pe pg pr l = .error ⟨500, "400: Tipo inválido."⟩ := by
  unfold gerar_proposta gerar_proposta_try
  rw [hd]
  simp [ht]
  rfl

/-! ## Claims C1–C5 (Decision Engine) -/

/-- Claim C1 is false on the code: `gerar_proposta` never clamps the
    predictor output — with a predictor returning 150 the proposal's
    `lead_score` field is 150, outside [0, 100]. -/
theorem C1_counterexample :
    (propostaOf (gerar_proposta consumo_medio_eletricidade_interno (24/100) (10/100)
        (constPredictor 150) leadLisboa)).map Proposta.lead_score = some 150 ∧
    ¬ ((150 : ℚ) ≤ 100) := by
  constructor
  · rw [gerar_proposta_ok _ _ _ _ _ tiposLisboa (by rfl) (by decide)]
    simp only [propostaOf, Option.map_some]
    norm_num [pyRound, pyRoundInt]
  · norm_num

/-- Claim C1 amended: the Decision Engine applies no clamp at all — for
    every predictor output `s`, including values outside [0, 100], the raw
    `s` is what determines the returned `lead_score` (rounded to one
    decimal), the discount tier and the priority. -/
theorem C1_amended (b : List (String × ConsumoTipos)) (pe pg s : ℚ) (l : LeadInput)
    (t : ConsumoTipos) (hd : lookupBase b l.distrito = some t)
    (ht : l.tipo_cliente ∈ tiposValidos) :
    (propostaOf (gerar_proposta b pe pg (constPredictor s) l)).map Proposta.lead_score =
      some (pyRound s 1) ∧
    (propostaOf (gerar_proposta b pe pg (constPredictor s) l)).map Proposta.desconto_oferecido =
      some (descontoDe s) ∧
    (propostaOf (gerar_proposta b pe pg (constPredictor s) l)).map Proposta.prioridade =
      some (prioridadeDe s) := by
  rw [gerar_proposta_ok b pe pg s l t hd ht]
  simp [propostaOf]

/-- Witness for C1: the amended theorem applied at a concrete out-of-range
    score (150) on the built-in baseline. -/
theorem C1_witness :
    (propostaOf (gerar_proposta consumo_medio_eletricidade_interno (24/100) (10/100)
        (constPredictor 150) leadLisboa)).map Proposta.lead_score = some (pyRound 150 1) :=
  (C1_amended consumo_medio_eletricidade_interno (24/100) (10/100) 150 leadLisboa
    tiposLisboa (by rfl) (by decide)).1

/-- Claim C2 is false on the code: both an invalid-region request and a
    predictor failure surface to the caller with the same server-error
    status 500 — the client-error semantic is lost and the two failure
    kinds are collapsed into the same undifferentiated status. -/
theorem C2_counterexample :
    statusOf (gerar_proposta consumo_medio_eletricidade_interno (24/100) (10/100)
      (constPredictor 50) leadAtlantis) = some 500 ∧
    statusOf (gerar_proposta consumo_medio_eletricidade_interno (24/100) (10/100)
      (failPredictor "model exploded") leadLisboa) = some 500 := by
  constructor
  · rw [gerar_proposta_distrito_inv _ _ _ _ _ (by rfl)]
    rfl
  · rw [gerar_proposta_predfail _ _ _ "model exploded" _ tiposLisboa (by rfl) (by decide)]
    rfl

/-- Claim C2 amended: an invalid region or customer type is rejected
    before any bill computation, with the specific reason string of the
    source; but the blanket `except Exception` handler converts the
    400 client error into a 500 whose detail merely prefixes the original
    status, so validation failures are surfaced with the same 500
    server-error status as predictor failures (the result is independent
    of the predictor, showing nothing downstream is computed). -/
theorem C2_amended (b : List (String × ConsumoTipos)) (pe pg : ℚ) (pr : Predictor)
    (l : LeadInput) :
    (lookupBase b l.distrito = none →
      gerar_proposta b pe pg pr l = .error ⟨500, "400: Distrito inválido."⟩) ∧
    (∀ t, lookupBase b l.distrito = some t → l.tipo_cliente ∉ tiposValidos →
      gerar_proposta b pe pg pr l = .error ⟨500, "400: Tipo inválido."⟩) :=
  ⟨fun hd => gerar_proposta_distrito_inv b pe pg pr l hd,
   fun t hd ht => gerar_proposta_tipo_inv b pe pg pr l t hd ht⟩

/-- Witness for C2: the amended theorem applied to the "Atlantis" request
    on the built-in baseline. -/
theorem C2_witness :
    gerar_proposta consumo_medio_eletricidade_interno (24/100) (10/100)
      (constPredictor 50) leadAtlantis = .error ⟨500, "400: Distrito inválido."⟩ :=
  (C2_amended consumo_medio_eletricidade_interno (24/100) (10/100)
    (constPredictor 50) leadAtlantis).1 (by rfl)

/-- Claim C3 is false on the code: a supplied known consumption of 0 is
    falsy under Python `or`, so the baseline value 3850 is used instead of
    0, and the bill is 924, not 0. -/
theorem C3_counterexample :
    consumo_kwh_efetivo leadConsumoZero tiposLisboa = 3850 ∧
    (propostaOf (gerar_proposta consumo_medio_eletricidade_interno (24/100) (10/100)
        (constPredictor 50) leadConsumoZero)).map Proposta.fatura_atual_eur = some 924 ∧
    (3850 : ℚ) ≠ 0 := by
  refine ⟨by norm_num [consumo_kwh_efetivo, leadConsumoZero, ConsumoTipos.get, tiposLisboa],
    ?_, by norm_num⟩
  rw [gerar_proposta_ok _ _ _ _ _ tiposLisboa (by rfl) (by decide)]
  simp only [propostaOf, Option.map_some]
  norm_num [consumo_kwh_efetivo, consumo_gas_efetivo, leadConsumoZero, ConsumoTipos.get,
    tiposLisboa, pyRound, pyRoundInt]

/-- Claim C3 amended: the effective annual kWh equals
    `profile.knownConsumption` when that field is present **and nonzero**;
    when the field is absent **or supplied as 0** (both falsy under the
    Python `or` of `main.py` line 102) the baseline value is used. -/
theorem C3_amended (l : LeadInput) (t : ConsumoTipos) :
    (∀ v : ℚ, l.consumo_anual_kwh = some v → v ≠ 0 → consumo_kwh_efetivo l t = v) ∧
    ((l.consumo_anual_kwh = none ∨ l.consumo_anual_kwh = some 0) →
      consumo_kwh_efetivo l t = (t.get l.tipo_cliente : ℚ)) := by
  constructor
  · intro v hv hnz
    simp [consumo_kwh_efetivo, hv, hnz]
  · rintro (hv | hv) <;> simp [consumo_kwh_efetivo, hv]

/-- Witness for C3: a supplied nonzero consumption (5000) is used as-is;
    an absent one falls back to the baseline value 3850. -/
theorem C3_witness :
    consumo_kwh_efetivo leadConsumo5000 tiposLisboa = 5000 ∧
    consumo_kwh_efetivo leadLisboa tiposLisboa = 3850 := by
  constructor
  · exact (C3_amended _ tiposLisboa).1 5000 rfl (by norm_num)
  · rw [(C3_amended leadLisboa tiposLisboa).2 (Or.inl rfl)]
    norm_num [leadLisboa, ConsumoTipos.get, tiposLisboa]

/-- Claim C4: the discount tier table is evaluated top-down with strict
    `>` comparisons — score > 70 gives 22, > 50 gives 18, > 30 gives 15,
    otherwise 12 — and a score of exactly 70 maps to 18, not 22. -/
theorem C4_tier (b : List (String × ConsumoTipos)) (pe pg s : ℚ) (l : LeadInput)
    (t : ConsumoTipos) (hd : lookupBase b l.distrito = some t)
    (ht : l.tipo_cliente ∈ tiposValidos) :
    (propostaOf (gerar_proposta b pe pg (constPredictor s) l)).map Proposta.desconto_oferecido =
      some (if 70 < s then 22 else if 50 < s then 18 else if 30 < s then 15 else 12) ∧
    (s = 70 →
      (propostaOf (gerar_proposta b pe pg (constPredictor s) l)).map
        Proposta.desconto_oferecido = some 18) := by
  have h := gerar_proposta_ok b pe pg s l t hd ht
  constructor
  · rw [h]
    simp [propostaOf, descontoDe]
  · intro hs
    subst hs
    rw [h]
    simp [propostaOf, descontoDe]
    norm_num

/-- Witness for C4: a concrete run with score exactly 70 on the built-in
    baseline returns discount 18. -/
theorem C4_witness :
    (propostaOf (gerar_proposta consumo_medio_eletricidade_interno (24/100) (10/100)
        (constPredictor 70) leadLisboa)).map Proposta.desconto_oferecido = some 18 :=
  (C4_tier consumo_medio_eletricidade_interno (24/100) (10/100) 70 leadLisboa
    tiposLisboa (by rfl) (by decide)).2 rfl

/-- Claim C5: with the gas-usage flag false the effective gas consumption
    is 0, and the whole response — in particular the bill — is independent
    of the supplied `consumo_gas_m3` value. -/
theorem C5_gas (b : List (String × ConsumoTipos)) (pe pg : ℚ) (pr : Predictor)
    (l : LeadInput) (g1 g2 : ℚ) (h : l.usa_gas = false) :
    consumo_gas_efetivo { l with consumo_gas_m3 := g1 } = 0 ∧
    gerar_proposta b pe pg pr { l with consumo_gas_m3 := g1 } =
      gerar_proposta b pe pg pr { l with consumo_gas_m3 := g2 } := by
  constructor
  · simp [consumo_gas_efetivo, h]
  · unfold gerar_proposta gerar_proposta_try
    simp [consumo_kwh_efetivo, consumo_gas_efetivo, h]

/-- Witness for C5: the theorem applied with gas flag false and supplied
    gas consumptions 500 and 0 — the two runs coincide. -/
theorem C5_witness :
    consumo_gas_efetivo { leadLisboa with consumo_gas_m3 := 500 } = 0 ∧
    gerar_proposta consumo_medio_eletricidade_interno (24/100) (10/100) (constPredictor 50)
        { leadLisboa with consumo_gas_m3 := 500 } =
      gerar_proposta consumo_medio_eletricidade_interno (24/100) (10/100) (constPredictor 50)
        { leadLisboa with consumo_gas_m3 := 0 } :=
  C5_gas consumo_medio_eletricidade_interno (24/100) (10/100) (constPredictor 50)
    leadLisboa 500 0 rfl

/-! ## Scraper fixtures -/

/-- A well-formed GWh source table: one residential Lisboa row, total 7. -/
def goodTable : SourceTable :=
  { headers := ["Município", "Tipo de Consumidor", "Consumo (GWh)"]
    rows := [[⟨"Lisboa - A", 0⟩, ⟨"Residencial", 0⟩, ⟨"", 7⟩]] }

/-- The same table with the consumption column labelled in kWh (also
    accepted by column detection). -/
def kwhTable : SourceTable :=
  { headers := ["Município", "Tipo de Consumidor", "Consumo (kWh)"]
    rows := [[⟨"Lisboa - A", 0⟩, ⟨"Residencial", 0⟩, ⟨"", 7⟩]] }

/-- A table in which no column matches the consumption role. -/
def semConsumoTable : SourceTable :=
  { headers := ["Município", "Tipo de Consumidor", "Total"]
    rows := [[⟨"Lisboa", 0⟩, ⟨"Residencial", 0⟩, ⟨"", 7⟩]] }

/-- A table in which no column matches the municipality role, while the
    type and consumption roles are matched. -/
def semMunicipioTable : SourceTable :=
  { headers := ["Zona", "Tipo de Consumidor", "Consumo (GWh)"]
    rows := [[⟨"Lisboa", 0⟩, ⟨"Residencial", 0⟩, ⟨"", 7⟩]] }

/-- A well-formed table whose only residential row has consumption 0. -/
def zeroTable : SourceTable :=
  { headers := ["Município", "Tipo de Consumidor", "Consumo (GWh)"]
    rows := [[⟨"Lisboa", 0⟩, ⟨"Residencial", 0⟩, ⟨"", 0⟩]] }

/-! ## Claims C6–C8 (provenance, fallback, unit conversion) -/

/-- Claim C6 is false on the code: a run that scrapes successfully (its
    normalization succeeds and its result is not the fallback table) and a
    pure fallback run record the very same provenance string — the tag
    does not reflect whether a fallback fired. -/
theorem C6_counterexample :
    normalizeTable goodTable = .ok [("Lisboa", mediaKwh 7)] ∧
    scrape_dgeg_electricidade (some goodTable) ≠ get_fallback_elec ∧
    (scraper_main (some goodTable)).fonte = (scraper_main none).fonte := by
  refine ⟨rfl, ?_, rfl⟩
  have h1 : scrape_dgeg_electricidade (some goodTable) = [("Lisboa", mediaKwh 7)] := rfl
  rw [h1]
  intro h
  have := congrArg List.length h
  simp [get_fallback_elec] at this

/-- Claim C6 amended: the provenance tag recorded in the snapshot is the
    constant string "DGEG (raspado) + Fallback 2024" on every pipeline
    run, whether or not any fallback fired. -/
theorem C6_amended (fetched : Option SourceTable) :
    (scraper_main fetched).fonte = "DGEG (raspado) + Fallback 2024" := rfl

/-- Claim C7 is false as stated: after a missing-consumption-column
    fallback the pipeline's output baseline does not equal the fallback
    table exactly — the fallback's Setúbal entry (4100) is dropped. -/
theorem C7_counterexample :
    lookupQ get_fallback_elec "Setúbal" = some 4100 ∧
    lookupBase (scraper_main (some semConsumoTable)).consumo_medio_eletricidade
      "Setúbal" = none := ⟨rfl, rfl⟩

/-- Claim C7 amended: when any of the three roles (municipality, type,
    consumption) has no matching column, normalization fails with the
    missing roles recorded and the scraper stage returns the fallback
    table exactly; the pipeline's final baseline is then the one built
    from the fallback table — restricted to the five fixed districts,
    with the derived customer-type scalings. -/
theorem C7_amended (t : SourceTable)
    (h : findMunicipioCol t = none ∨ findTipoCol t = none ∨ findConsumoCol t = none) :
    normalizeTable t =
      .error (.missingRoles (findMunicipioCol t).isNone (findTipoCol t).isNone
        (findConsumoCol t).isNone) ∧
    scrape_dgeg_electricidade (some t) = get_fallback_elec ∧
    (scraper_main (some t)).consumo_medio_eletricidade =
      buildBaseline get_fallback_elec := by
  have h1 : normalizeTable t =
      .error (.missingRoles (findMunicipioCol t).isNone (findTipoCol t).isNone
        (findConsumoCol t).isNone) := by
    cases hm : findMunicipioCol t <;> cases ht2 : findTipoCol t <;>
      cases hc : findConsumoCol t <;>
        first
          | (simp [normalizeTable, hm, ht2, hc]; done)
          | simp [hm, ht2, hc] at h
  have h2 : scrape_dgeg_electricidade (some t) = get_fallback_elec := by
    show (match normalizeTable t with
          | .ok m => m
          | .error _ => get_fallback_elec) = get_fallback_elec
    rw [h1]
  refine ⟨h1, h2, ?_⟩
  show buildBaseline (scrape_dgeg_electricidade (some t)) = _
  rw [h2]

/-- Witness for C7: the amended theorem applied to two concrete tables —
    one whose consumption role is unmatched (headers municipality, type
    and a unitless "Total") and one whose municipality role is unmatched
    (headers "Zona", type and a GWh consumption column). -/
theorem C7_witness :
    (normalizeTable semConsumoTable = .error (.missingRoles false false true) ∧
     scrape_dgeg_electricidade (some semConsumoTable) = get_fallback_elec ∧
     (scraper_main (some semConsumoTable)).consumo_medio_eletricidade =
       buildBaseline get_fallback_elec) ∧
    (normalizeTable semMunicipioTable = .error (.missingRoles true false false) ∧
     scrape_dgeg_electricidade (some semMunicipioTable) = get_fallback_elec ∧
     (scraper_main (some semMunicipioTable)).consumo_medio_eletricidade =
       buildBaseline get_fallback_elec) :=
  ⟨C7_amended semConsumoTable (Or.inr (Or.inr rfl)),
   C7_amended semMunicipioTable (Or.inl rfl)⟩

/-- Claim C8 is false on the code: with a kWh-labelled consumption column
    the detected unit is kWh, yet the aggregated total 7 is converted with
    the GWh factor, yielding 2 instead of the unit-aware 0. -/
theorem C8_counterexample :
    tableDetectedUnit kwhTable = some .kwh ∧
    normalizeTable kwhTable = .ok [("Lisboa", mediaKwh 7)] ∧
    mediaKwh 7 = 2 ∧
    convert_spec .kwh 7 = 0 ∧
    (2 : ℚ) ≠ 0 := by
  refine ⟨rfl, rfl, ?_, ?_, by norm_num⟩
  · norm_num [mediaKwh, pyRoundInt]
  · norm_num [convert_spec, toKwhFactor, pyRoundInt]

/-- Claim C8 amended: the aggregated per-region total is always converted
    with the fixed GWh→kWh factor 1 000 000 and divided by the national
    residential-consumer count 3 500 000, regardless of which unit token
    the column detection matched — this coincides with unit-aware
    conversion exactly when the detected unit is GWh (the kWh-labelled
    table above shows the mismatch otherwise). -/
theorem C8_amended (v : ℚ) :
    mediaKwh v = convert_spec .gwh v ∧
    normalizeTable kwhTable = .ok [("Lisboa", mediaKwh 7)] ∧
    tableDetectedUnit kwhTable = some .kwh :=
  ⟨rfl, rfl, rfl⟩

/-! ## Claims C9–C10 (baseline invariants, default fill-in) -/

/-- Truncation of a non-negative rational is non-negative. -/
lemma pyInt_nonneg (v : ℚ) (h : 0 ≤ v) : 0 ≤ pyInt v := by
  simp only [pyInt, if_pos h]
  exact Int.floor_nonneg.mpr h

/-- For `v ≥ 1` and a factor `c ≥ 2`, truncation strictly increases. -/
lemma pyInt_lt_mul (v c : ℚ) (hv : 1 ≤ v) (hc : 2 ≤ c) : pyInt v < pyInt (v * c) := by
  have h0 : (0 : ℚ) ≤ v := le_trans zero_le_one hv
  have h2 : v + 1 ≤ v * c := by nlinarith
  have h0c : (0 : ℚ) ≤ v * c := by nlinarith
  have hfl : ⌊v⌋ + 1 ≤ ⌊v * c⌋ := by
    apply Int.le_floor.mpr
    push_cast
    have := Int.floor_le v
    linarith
  simp only [pyInt, if_pos h0, if_pos h0c]
  omega

/-- A baseline entry built from per-district averages that are all ≥ 1
    (or from the 4000 default) has a non-negative residential value and
    strictly larger derived values. -/
lemma buildEntry_props (medias : List (String × ℚ)) (h : ∀ p ∈ medias, 1 ≤ p.2)
    (d : String) :
    0 ≤ (buildEntry medias d).residencial ∧
    (buildEntry medias d).residencial < (buildEntry medias d).comercial_pequeno ∧
    (buildEntry medias d).residencial < (buildEntry medias d).industrial := by
  have hv : 1 ≤ (lookupQ medias d).getD 4000 := by
    cases hq : lookupQ medias d with
    | none => norm_num
    | some v =>
      rcases Option.map_eq_some'.mp hq with ⟨p, hp, hpv⟩
      have hmem := List.mem_of_find?_eq_some hp
      have h1 := h p hmem
      rw [hpv] at h1
      simpa using h1
  refine ⟨pyInt_nonneg _ (le_trans zero_le_one hv),
    pyInt_lt_mul _ _ hv (by norm_num), pyInt_lt_mul _ _ hv (by norm_num)⟩

/-- Claim C9 is false as stated on the code: a source table whose Lisboa
    residential total is 0 is scraped successfully into the average 0, and
    the resulting baseline row for Lisboa is ⟨0, 0, 0⟩ — its derived
    small-commercial value is not strictly larger than its residential
    value. -/
theorem C9_counterexample :
    lookupBase (scraper_main (some zeroTable)).consumo_medio_eletricidade "Lisboa" =
      some ⟨0, 0, 0⟩ ∧
    ¬ ((0 : Int) < 0) := by
  constructor
  · have h0 : mediaKwh 0 = 0 := by norm_num [mediaKwh, pyRoundInt]
    have h2 : lookupBase (scraper_main (some zeroTable)).consumo_medio_eletricidade
        "Lisboa" = some (buildEntry [("Lisboa", mediaKwh 0)] "Lisboa") := rfl
    rw [h2, h0]
    have h3 : lookupQ [("Lisboa", (0 : ℚ))] "Lisboa" = some 0 := rfl
    simp only [buildEntry, h3, Option.getD_some]
    norm_num [pyInt]
  · norm_num

/-- Claim C9 amended: whenever every scraped per-district average is at
    least 1 kWh (the 4000 default for absent districts included), every
    entry of the constructed baseline has a non-negative residential value
    and derived small-commercial and industrial values strictly larger
    than it (2.2× and 11× before truncation); an average of 0 — which a
    zero-consumption source table produces — violates the strict
    monotonicity. -/
theorem C9_amended (medias : List (String × ℚ)) (h : ∀ p ∈ medias, 1 ≤ p.2) :
    ∀ e ∈ buildBaseline medias,
      0 ≤ e.2.residencial ∧
      e.2.residencial < e.2.comercial_pequeno ∧
      e.2.residencial < e.2.industrial := by
  intro e he
  simp only [buildBaseline, List.mem_map] at he
  rcases he with ⟨d, _, rfl⟩
  exact buildEntry_props medias h d

/-- Witness for C9: the amended theorem applied to the fallback table (all
    of whose values are ≥ 1), projected at the Lisboa entry. -/
theorem C9_witness :
    0 ≤ (buildEntry get_fallback_elec "Lisboa").residencial ∧
    (buildEntry get_fallback_elec "Lisboa").residencial <
      (buildEntry get_fallback_elec "Lisboa").comercial_pequeno ∧
    (buildEntry get_fallback_elec "Lisboa").residencial <
      (buildEntry get_fallback_elec "Lisboa").industrial := by
  have h := C9_amended get_fallback_elec (by intro p hp; fin_cases hp <;> norm_num)
  exact h ("Lisboa", buildEntry get_fallback_elec "Lisboa")
    (by simp [buildBaseline, distritos_finais])

/-- Looking a fixed output district up in the assembled baseline yields
    the entry built for it. -/
lemma lookupBase_buildBaseline (medias : List (String × ℚ)) (d : String)
    (hd : d ∈ distritos_finais) :
    lookupBase (buildBaseline medias) d = some (buildEntry medias d) := by
  fin_cases hd <;> rfl

/-- Claim C10: any of the five fixed output districts that is absent from
    the scraped per-district averages silently receives the default
    residential value 4000 kWh with its scaled derived values 8800 and
    44000 — the pipeline does not fail and does not fall back wholesale. -/
theorem C10_default (f : Option SourceTable) (d : String) (hd : d ∈ distritos_finais)
    (h : lookupQ (scrape_dgeg_electricidade f) d = none) :
    lookupBase (scraper_main f).consumo_medio_eletricidade d =
      some ⟨4000, 8800, 44000⟩ := by
  have h1 := lookupBase_buildBaseline (scrape_dgeg_electricidade f) d hd
  have hb : buildEntry (scrape_dgeg_electricidade f) d = ⟨4000, 8800, 44000⟩ := by
    simp only [buildEntry, h, Option.getD_none]
    norm_num [pyInt]
  rw [show (scraper_main f).consumo_medio_eletricidade =
    buildBaseline (scrape_dgeg_electricidade f) from rfl, h1, hb]

/-- Witness for C10: the GWh table above only yields a Lisboa average, so
    Porto is absent and receives the default entry. -/
theorem C10_witness :
    lookupBase (scraper_main (some goodTable)).consumo_medio_eletricidade "Porto" =
      some ⟨4000, 8800, 44000⟩ :=
  C10_default (some goodTable) "Porto" (by decide) rfl
